import Mathlib

/-!
Verification development for a small conversational Streamlit front-end
(`app.py`): a conversation-state and persistence manager plus a model-call
adapter.  The Python source is shallowly embedded below: pure fragments
become Lean functions, the JSON values handled by Python's `json` module
become the inductive `Json`, the on-disk snapshot becomes `FileState`, and
Python code that may raise an uncaught exception is embedded in the
`Except String` monad (an `.error` value models an exception escaping the
surrounding Python code).
-/

namespace AgentApp

/-- JSON values as produced and consumed by Python's `json` module. -/
inductive Json where
  | null
  | bool (b : Bool)
  | num (n : Int)
  | str (s : String)
  | arr (xs : List Json)
  | obj (kvs : List (String × Json))

/-- Python truthiness of a JSON-decoded value (`if not candidates: ...`). -/
def Json.truthy : Json → Bool
  | .null => false
  | .bool b => b
  | .num n => n != 0
  | .str s => s != ""
  | .arr xs => !xs.isEmpty
  | .obj kvs => !kvs.isEmpty

/-- State of the snapshot file `conversation_memory.json`: the contents
either parse as a JSON value or they do not. -/
inductive FileContents where
  | valid (j : Json)
  | garbage

/-- `none` models an absent snapshot file. -/
abbrev FileState := Option FileContents

/-- Embeds `load_memory` (app.py lines 14-23): if the file exists, try to
`json.load` it and return the data only when it is a `list`; any exception
(in particular an unparseable file) and any non-list top level fall through
to `return []`.  A missing file also yields `[]`.  The function is total:
`load_memory` never raises. -/
def load_memory (fs : FileState) : List Json :=
  match fs with
  | none => []
  | some .garbage => []
  | some (.valid j) =>
    match j with
    | .arr xs => xs
    | _ => []

/-- Embeds `save_memory` (app.py lines 25-30) in the case where the write
succeeds: `json.dump(memory, f, ...)` replaces the snapshot with the JSON
array holding `memory`.  (On an IO failure the Python code swallows the
exception and leaves the previous file state; the claims below about file
contents are conditioned on the save succeeding, so the success case is
what is embedded.) -/
def save_memory (memory : List Json) : FileState :=
  some (.valid (.arr memory))

/-- Role of a chat message as stored by the app (`"user"` / `"assistant"`). -/
inductive Role where
  | user
  | assistant
deriving DecidableEq

/-- One conversation entry `{"role": ..., "content": ...}` as the app
creates them (app.py lines 128, 138, 171, 174). -/
structure Message where
  role : Role
  content : String
deriving DecidableEq

/-- Wire string stored in the snapshot for a role. -/
def Role.tag : Role → String
  | .user => "user"
  | .assistant => "assistant"

/-- JSON encoding of a message as `json.dump` writes it. -/
def Message.toJson (m : Message) : Json :=
  .obj [("role", .str m.role.tag), ("content", .str m.content)]

/-- JSON encoding of a whole conversation. -/
def serializeConv (conv : List Message) : List Json :=
  conv.map Message.toJson

/-- Python `needle in hay` on strings, via character lists:
`listPre n h` is `n` being a leading block of `h`. -/
def listPre : List Char → List Char → Bool
  | [], _ => true
  | _ :: _, [] => false
  | a :: as, b :: bs => a == b && listPre as bs

/-- `listInf n h` is `n` occurring contiguously somewhere in `h`. -/
def listInf (n : List Char) : List Char → Bool
  | [] => listPre n []
  | c :: rest => listPre n (c :: rest) || listInf n rest

/-- Python's `needle in hay` substring test. -/
def containsStr (hay needle : String) : Bool :=
  listInf needle.toList hay.toList

/-- Python's `s.strip()` (whitespace stripped from both ends). -/
def pyStrip (s : String) : String :=
  ⟨((s.toList.dropWhile Char.isWhitespace).reverse.dropWhile
      Char.isWhitespace).reverse⟩

/-- The fixed system instruction text (app.py lines 34-37). -/
def system_instruction : String :=
  "You are a proactive, helpful AI agent in a Streamlit app. " ++
  "Analyze previous conversation and provide a summary, suggestion, or next topic."

/-- The instruction turn prepended to every request (app.py lines 38-41):
attributed to the `"user"` role slot and prefixed with a literal tag. -/
def instructionTurn : Json :=
  .obj [("role", .str "user"),
        ("parts", .arr [.obj [("text",
          .str ("[SYSTEM INSTRUCTION]\n" ++ system_instruction))]])]

/-- Wire turn built from one stored message (app.py lines 43-47):
`g_role = "user" if role == "user" else "model"`, content as the text. -/
def msgTurn (m : Message) : Json :=
  .obj [("role", .str (if m.role.tag == "user" then "user" else "model")),
        ("parts", .arr [.obj [("text", .str m.content)]])]

/-- Final turn carrying the new prompt (app.py line 48). -/
def promptTurn (p : String) : Json :=
  .obj [("role", .str "user"), ("parts", .arr [.obj [("text", .str p)]])]

/-- Embeds the request-payload construction of `generate_gemini_response`
(app.py lines 33-48): the instruction turn, then every conversation message
whose content is non-empty (`if text:`) as a wire turn, then the prompt
turn. -/
def buildContents (user_prompt : String) (conversation : List Message) :
    List Json :=
  instructionTurn ::
    (conversation.filter (fun m => m.content != "")).map msgTurn
    ++ [promptTurn user_prompt]

/-- Outcome of `requests.post(...)` as seen by the caller: either the call
raised (connection failure, timeout, ...), or an HTTP response arrived
with a status code, a body text, and — when the body is valid JSON — its
decoded value (`none` models a body `response.json()` cannot parse). -/
inductive HttpResult where
  | transportError (e : String)
  | response (status : Nat) (text : String) (body : Option Json)

/-- Python `"".join(texts)`: succeeds only when every collected value is a
string, otherwise `join` raises `TypeError`. -/
def pyJoinStr : List Json → Except String String
  | [] => .ok ""
  | .str s :: rest => (pyJoinStr rest).map (fun t => s ++ t)
  | _ => .error "TypeError: sequence item is not a str"

/-- The list comprehension `[p.get("text", "") for p in parts if "text" in p]`
over the elements of a JSON array: a dict contributes its `"text"` value
when present; `"text" in p` on a non-container raises `TypeError`; when the
membership test succeeds on a list, `p.get` raises `AttributeError`. -/
def textsOf : List Json → Except String (List Json)
  | [] => .ok []
  | p :: rest =>
    match p with
    | .obj kvs =>
      match kvs.lookup "text" with
      | some v => (textsOf rest).map (fun t => v :: t)
      | none => textsOf rest
    | .arr xs =>
      if xs.any (fun x => match x with | .str s => s == "text" | _ => false)
      then .error "AttributeError: list object has no attribute get"
      else textsOf rest
    | .str s =>
      if containsStr s "text"
      then .error "AttributeError: str object has no attribute get"
      else textsOf rest
    | _ => .error "TypeError: argument is not iterable"

/-- The comprehension applied to whatever `.get("parts", [])` produced:
iterating a string yields its single characters, none of which contains
`"text"`; iterating a dict yields its keys, and a key containing `"text"`
would then hit `str.get` (`AttributeError`); a non-iterable raises. -/
def textsOfParts : Json → Except String (List Json)
  | .arr ps => textsOf ps
  | .str _ => .ok []
  | .obj kvs =>
    if kvs.any (fun kv => containsStr kv.1 "text")
    then .error "AttributeError: str object has no attribute get"
    else .ok []
  | _ => .error "TypeError: argument is not iterable"

/-- Embeds the body of the `try:` block of `generate_gemini_response`
(app.py lines 65-73 up to the `return`): an `.error` is a Python exception
raised inside the block, which the surrounding `except` converts into a
`"Parse error: ..."` reply. -/
def extractText (data : Json) : Except String String := do
  let candidates : Json ←
    match data with
    | .obj kvs => pure ((kvs.lookup "candidates").getD (.arr []))
    | _ => .error "AttributeError: object has no attribute get"
  if !candidates.truthy then
    pure "No response from model."
  else
    let c0 : Json ←
      match candidates with
      | .arr (c :: _) => pure c
      | .arr [] => .error "IndexError: list index out of range"
      | _ => .error "TypeError: object is not subscriptable"
    let content : Json ←
      match c0 with
      | .obj kvs => pure ((kvs.lookup "content").getD (.obj []))
      | _ => .error "AttributeError: object has no attribute get"
    let parts : Json ←
      match content with
      | .obj kvs => pure ((kvs.lookup "parts").getD (.arr []))
      | _ => .error "AttributeError: object has no attribute get"
    let texts ← textsOfParts parts
    let joined ← pyJoinStr texts
    pure (if pyStrip joined == "" then "No text in response." else pyStrip joined)

/-- Embeds the response handling of `generate_gemini_response`
(app.py lines 58-73).  The request payload it sends is `buildContents`
(lines 33-48); the network exchange itself is abstracted by `resp`.
In the result, an `.ok` value is the string the Python function returns
and an `.error` value is an uncaught Python exception escaping the
function; `payload` is the `"contents"` array posted to the endpoint.
Note that `data = response.json()` (line 64) sits outside both the `try`
around `requests.post` and the `try` around the extraction, so a 200
response with an unparseable body raises out of the function. -/
def generate_gemini_response (user_prompt : String)
    (conversation : List Message) (resp : HttpResult) :
    List Json × Except String String :=
  (buildContents user_prompt conversation,
    match resp with
    | .transportError e => .ok ("Request error: " ++ e)
    | .response status text body =>
      if status != 200 then
        .ok ("Error: " ++ toString status ++ " - " ++ text)
      else
        match body with
        | none => .error "JSONDecodeError: response body is not valid JSON"
        | some data =>
          match extractText data with
          | .ok s => .ok s
          | .error e => .ok ("Parse error: " ++ e))

/-- The fixed greeting text (app.py lines 134-136). -/
def greeting : String :=
  "Hi, welcome! I'll remember our conversation using persistent memory. " ++
  "What would you like to talk about today?"

/-- The fixed substring marker by which a prior autoreply is recognized
(app.py line 102). -/
def autoreplyMarker : String := "Now that we have a solid understanding"

/-- Embeds `is_last_message_autoreply` (app.py lines 95-102): false on an
empty conversation, otherwise whether the last message is an assistant
message whose content contains the marker phrase. -/
def is_last_message_autoreply (conversation : List Message) : Bool :=
  match conversation.getLast? with
  | none => false
  | some last =>
    last.role == Role.assistant && containsStr last.content autoreplyMarker

/-- Embeds the loop of app.py lines 117-121: walk the conversation in
reverse and take the content of the first user message, defaulting to `""`. -/
def lastUserMessageOf (conversation : List Message) : String :=
  match conversation.reverse.find? (fun m => m.role == Role.user) with
  | some m => m.content
  | none => ""

/-- The synthesized autoreply prompt (app.py lines 122-126), embedding the
last user message. -/
def autoreplyPrompt (last_user_message : String) : String :=
  "Review the previous conversation and send a proactive reply: " ++
  "summarize, continue the last topic, suggest a next step, or connect to a new idea. " ++
  "The last message from the user was: '" ++ last_user_message ++ "'."

/-- Result of running one section of the script on the session state:
the conversation and snapshot file afterwards, plus the list of
`(prompt, conversation)` arguments of each `generate_gemini_response`
call the section issued, in order. -/
structure StepOut where
  conv : List Message
  file : FileState
  calls : List (String × List Message)

/-- Embeds the greeting / autoreply section of the script
(app.py lines 104-139), the part that runs on every session load.
If the loaded conversation is non-empty and its last message is not
recognized as an autoreply, the adapter is invoked once with the
synthesized prompt, its reply is appended as an assistant message and the
conversation is saved; if the last message is a recognized autoreply,
nothing happens.  On an empty conversation the fixed greeting is appended
as an assistant message and saved, with no adapter call.  `reply` abstracts
the string the adapter call returns. -/
def topSection (conversation : List Message) (file : FileState)
    (reply : String) : StepOut :=
  if !conversation.isEmpty then
    if !is_last_message_autoreply conversation then
      let prompt := autoreplyPrompt (lastUserMessageOf conversation)
      let conv2 := conversation ++ [⟨Role.assistant, reply⟩]
      ⟨conv2, save_memory (serializeConv conv2), [(prompt, conversation)]⟩
    else
      ⟨conversation, file, []⟩
  else
    let conv2 := conversation ++ [⟨Role.assistant, greeting⟩]
    ⟨conv2, save_memory (serializeConv conv2), []⟩

/-- Embeds the clear branch (app.py lines 159-167): the in-memory
conversation is emptied, the snapshot file is removed (a missing file or a
failing remove is ignored), and `st.stop()` ends the script run, so no
adapter call happens. -/
def clearBranch (_conversation : List Message) (_file : FileState) : StepOut :=
  ⟨[], none, []⟩

/-- Embeds the send branch (app.py lines 169-177).  The Python guard is
`(send_clicked or st.session_state.user_input) and
st.session_state.user_input.strip()`, with Python string truthiness.
When it holds: append the stripped text as a user message, invoke the
adapter with that text and the conversation including the just-appended
user message, append the reply as an assistant message, save. -/
def sendBranch (conversation : List Message) (file : FileState)
    (send_clicked : Bool) (user_input : String) (reply : String) : StepOut :=
  if (send_clicked || user_input != "") && pyStrip user_input != "" then
    let user_msg := pyStrip user_input
    let conv1 := conversation ++ [⟨Role.user, user_msg⟩]
    let conv2 := conv1 ++ [⟨Role.assistant, reply⟩]
    ⟨conv2, save_memory (serializeConv conv2), [(user_msg, conv1)]⟩
  else
    ⟨conversation, file, []⟩

/-- Spec-side description of one wire turn: a role string and a single
text part (used to state the payload-shape claim against `buildContents`). -/
def specTurn (role text : String) : Json :=
  .obj [("role", .str role), ("parts", .arr [.obj [("text", .str text)]])]

/-- Spec-side role mapping for the wire protocol:
`user → "user"`, `assistant → "model"`. -/
def specRoleMap : Role → String
  | .user => "user"
  | .assistant => "model"

/-- Spec-side well-formedness of one snapshot record: an object carrying a
`"role"` string that is `"user"` or `"assistant"` and a `"content"` string. -/
def isMessageJson : Json → Bool
  | .obj kvs =>
    (match kvs.lookup "role" with
     | some (.str r) => r == "user" || r == "assistant"
     | _ => false)
    && (match kvs.lookup "content" with
        | some (.str _) => true
        | _ => false)
  | _ => false

/-- Whether a file state holds contents that parse as a JSON array
(the only shape check `load_memory` actually performs). -/
def parsesAsArray : FileState → Bool
  | some (.valid (.arr _)) => true
  | _ => false

/-! Helper lemmas. -/

theorem msgTurn_eq_specTurn (m : Message) :
    msgTurn m = specTurn (specRoleMap m.role) m.content := by
  cases m with
  | mk r c => cases r <;> rfl

theorem append_one_ne (l : List Message) (m : Message) : l ++ [m] ≠ l := by
  intro h
  simpa using congrArg List.length h

theorem pyStrip_empty : pyStrip "" = "" := rfl

/-! Claims. -/

/-- C1: the claim states that the adapter's generate operation never
raises for any prompt, conversation and endpoint response, including a
success status with an unparseable body.  The code violates this: for a
200 response whose body is not valid JSON, `data = response.json()`
(app.py line 64) sits outside every `try` block and the resulting
exception escapes `generate_gemini_response` instead of becoming a
textual reply.  This theorem evaluates the embedded function at that
failing input. -/
theorem claim1_unparseable_body_escapes :
    (generate_gemini_response "hi" [] (.response 200 "oops" none)).2
      = .error "JSONDecodeError: response body is not valid JSON" := rfl

/-- C2 counterexample: a snapshot whose contents parse as the JSON array
`["x"]` is not an ordered sequence of role/content records, yet
`load_memory` returns it verbatim rather than the empty conversation, so
the claim as stated is false. -/
theorem claim2_counterexample :
    ([Json.str "x"].all isMessageJson) = false
    ∧ load_memory (some (.valid (.arr [.str "x"]))) = [.str "x"]
    ∧ [Json.str "x"] ≠ ([] : List Json) := by
  refine ⟨rfl, rfl, ?_⟩
  exact List.cons_ne_nil _ _

/-- C2 amended: `load_memory` returns the empty conversation (and never
raises — it is a total function of the file state) exactly when the file
is missing or its contents do not parse as a JSON array; contents that do
parse as a JSON array are returned as-is, with no validation that the
elements are Message-like role/content records. -/
theorem claim2_load_nonarray_empty (fs : FileState) (xs : List Json) :
    (parsesAsArray fs = false → load_memory fs = [])
    ∧ load_memory (some (.valid (.arr xs))) = xs := by
  constructor
  · intro h
    match fs with
    | none => rfl
    | some .garbage => rfl
    | some (.valid (.null)) => rfl
    | some (.valid (.bool b)) => rfl
    | some (.valid (.num n)) => rfl
    | some (.valid (.str s)) => rfl
    | some (.valid (.obj kvs)) => rfl
    | some (.valid (.arr ys)) => simp [parsesAsArray] at h
  · rfl

/-- C2 witness. -/
theorem claim2_witness : load_memory (some FileContents.garbage) = [] :=
  (claim2_load_nonarray_empty (some FileContents.garbage) []).1 rfl

/-- C3: the request payload built by the adapter is, in order, the fixed
instruction turn under the `"user"` role prefixed with the literal tag,
then every conversation message with non-empty content with roles mapped
`user → "user"`, `assistant → "model"`, then the prompt under the
`"user"` role; and at the concrete conversation
`[{user,"a"}, {assistant,"b"}]` with prompt `"c"` the payload is exactly
the instruction turn, then `"a"` as `"user"`, `"b"` as `"model"`,
`"c"` as `"user"`. -/
theorem claim3_payload_order (conversation : List Message)
    (user_prompt : String) (resp : HttpResult) :
    (generate_gemini_response user_prompt conversation resp).1
      = specTurn "user" ("[SYSTEM INSTRUCTION]\n" ++ system_instruction)
        :: (conversation.filter (fun m => m.content != "")).map
            (fun m => specTurn (specRoleMap m.role) m.content)
        ++ [specTurn "user" user_prompt]
    ∧ (generate_gemini_response "c"
        [⟨Role.user, "a"⟩, ⟨Role.assistant, "b"⟩] resp).1
      = [specTurn "user" ("[SYSTEM INSTRUCTION]\n" ++ system_instruction),
         specTurn "user" "a", specTurn "model" "b", specTurn "user" "c"] := by
  constructor
  · show buildContents user_prompt conversation = _
    rw [buildContents,
      List.map_congr_left (fun m _ => msgTurn_eq_specTurn m)]
    rfl
  · rfl

/-- C4: after every persistable mutation of the conversation — the
autoreply or greeting emission of the session-load section, and a
completed user turn of the send branch — the snapshot (with the save
embedded as succeeding) holds exactly the serialization of the current
in-memory conversation, while a branch that does not mutate the
conversation leaves the file untouched; the clear branch empties the
conversation and leaves no snapshot. -/
theorem claim4_snapshot_after_mutation (conversation : List Message)
    (file : FileState) (reply user_input : String) (send_clicked : Bool) :
    ((topSection conversation file reply).file =
      if (topSection conversation file reply).conv = conversation then file
      else save_memory (serializeConv (topSection conversation file reply).conv))
    ∧ ((sendBranch conversation file send_clicked user_input reply).file =
      if (sendBranch conversation file send_clicked user_input reply).conv
          = conversation then file
      else save_memory
        (serializeConv (sendBranch conversation file send_clicked user_input reply).conv))
    ∧ (clearBranch conversation file).conv = []
    ∧ (clearBranch conversation file).file = none := by
  refine ⟨?_, ?_, rfl, rfl⟩
  · unfold topSection
    by_cases h1 : conversation.isEmpty
    · have h0 : conversation = [] := List.isEmpty_iff.mp h1
      subst h0
      simp
    · by_cases h2 : is_last_message_autoreply conversation
      · simp [h1, h2]
      · simp [h1, h2, append_one_ne]
  · unfold sendBranch
    by_cases h : ((send_clicked || user_input != "")
        && pyStrip user_input != "") = true
    · have hne2 : conversation
          ++ [⟨Role.user, pyStrip user_input⟩] ++ [⟨Role.assistant, reply⟩]
          ≠ conversation := by
        intro hc
        simpa using congrArg List.length hc
      simp only [h, if_true]
      rw [if_neg hne2]
    · simp [h]

/-- C5: on a session load with a non-empty conversation, the autoreply
section issues an adapter call if and only if the last message is not
recognized as a prior autoreply (an assistant message containing the
fixed marker substring); when it fires, the reply is appended as an
assistant message and the conversation is persisted, and in every case at
most one adapter call is made per run of the section. -/
theorem claim5_autoreply_iff (conversation : List Message)
    (file : FileState) (reply : String) (hne : conversation ≠ []) :
    (topSection conversation file reply).calls.length ≤ 1
    ∧ ((topSection conversation file reply).calls ≠ []
        ↔ is_last_message_autoreply conversation = false)
    ∧ (is_last_message_autoreply conversation = false →
        topSection conversation file reply =
          ⟨conversation ++ [⟨Role.assistant, reply⟩],
           save_memory (serializeConv
             (conversation ++ [⟨Role.assistant, reply⟩])),
           [(autoreplyPrompt (lastUserMessageOf conversation),
             conversation)]⟩)
    ∧ (is_last_message_autoreply conversation = true →
        topSection conversation file reply = ⟨conversation, file, []⟩) := by
  have h1 : conversation.isEmpty = false := by
    cases hc : conversation.isEmpty
    · rfl
    · exact absurd (List.isEmpty_iff.mp hc) hne
  cases h2 : is_last_message_autoreply conversation <;>
    simp [topSection, h1, h2]

/-- C5 witness. -/
theorem claim5_witness :
    topSection [⟨Role.user, "a"⟩] none "r" =
      ⟨[⟨Role.user, "a"⟩, ⟨Role.assistant, "r"⟩],
       save_memory (serializeConv
         [⟨Role.user, "a"⟩, ⟨Role.assistant, "r"⟩]),
       [(autoreplyPrompt "a", [⟨Role.user, "a"⟩])]⟩ := by
  have h := (claim5_autoreply_iff [⟨Role.user, "a"⟩] none "r"
    (by decide)).2.2.1 (by decide)
  simpa using h

/-- C6: for every input whose stripped text is non-empty, the send branch
appends exactly two messages — first the user message with the stripped
text, then the assistant message with the adapter's returned text — in
that order, invokes the adapter once with the stripped text and the
conversation including the just-appended user message, and persists the
resulting conversation. -/
theorem claim6_send_appends_two (conversation : List Message)
    (file : FileState) (send_clicked : Bool) (user_input reply : String)
    (h : pyStrip user_input ≠ "") :
    sendBranch conversation file send_clicked user_input reply =
      ⟨conversation ++ [⟨Role.user, pyStrip user_input⟩,
                        ⟨Role.assistant, reply⟩],
       save_memory (serializeConv
         (conversation ++ [⟨Role.user, pyStrip user_input⟩,
                           ⟨Role.assistant, reply⟩])),
       [(pyStrip user_input,
         conversation ++ [⟨Role.user, pyStrip user_input⟩])]⟩ := by
  have hui : user_input ≠ "" := by
    intro h0
    exact h (h0 ▸ pyStrip_empty)
  unfold sendBranch
  rw [if_pos (by simp [hui, h])]
  simp

/-- C6 witness. -/
theorem claim6_witness :
    sendBranch [] none true "  hello  " "ok" =
      ⟨[⟨Role.user, "hello"⟩, ⟨Role.assistant, "ok"⟩],
       save_memory (serializeConv
         [⟨Role.user, "hello"⟩, ⟨Role.assistant, "ok"⟩]),
       [("hello", [⟨Role.user, "hello"⟩])]⟩ := by
  have h := claim6_send_appends_two [] none true "  hello  " "ok"
    (by decide)
  simpa using h

/-- C7: submitting an empty or whitespace-only input is a no-op — the
send branch leaves the conversation and the snapshot file unchanged and
issues no adapter call. -/
theorem claim7_blank_send_noop (conversation : List Message)
    (file : FileState) (send_clicked : Bool) (user_input reply : String)
    (h : pyStrip user_input = "") :
    sendBranch conversation file send_clicked user_input reply =
      ⟨conversation, file, []⟩ := by
  unfold sendBranch
  rw [if_neg (by simp [h])]

/-- C7 witness. -/
theorem claim7_witness :
    sendBranch [] none true "   " "ok" = ⟨[], none, []⟩ :=
  claim7_blank_send_noop [] none true "   " "ok" (by decide)

/-- C8: clearing leaves no snapshot, so a fresh session start loads the
empty conversation (second conjunct); running the session-load section on
that empty conversation yields exactly one assistant message carrying the
fixed greeting, with no adapter call, and the snapshot file then holds
exactly that one-message conversation. -/
theorem claim8_clear_then_start (conversation : List Message)
    (file : FileState) (reply : String) :
    (clearBranch conversation file).file = none
    ∧ load_memory (clearBranch conversation file).file = []
    ∧ topSection [] (clearBranch conversation file).file reply
        = ⟨[⟨Role.assistant, greeting⟩],
           some (.valid (.arr [Message.toJson ⟨Role.assistant, greeting⟩])),
           []⟩
    ∧ load_memory
        (topSection [] (clearBranch conversation file).file reply).file
        = serializeConv [⟨Role.assistant, greeting⟩] :=
  ⟨rfl, rfl, rfl, rfl⟩

/-- C9: for every well-formed snapshot (a JSON array of role/content
records), saving the conversation obtained by loading it and loading
again yields that same conversation (save/load round-trip). -/
theorem claim9_roundtrip (xs : List Json)
    (_h : xs.all isMessageJson = true) :
    load_memory (save_memory (load_memory (some (.valid (.arr xs))))) = xs
    ∧ load_memory (some (.valid (.arr xs))) = xs :=
  ⟨rfl, rfl⟩

/-- C9 witness. -/
theorem claim9_witness :
    load_memory (save_memory (load_memory
      (some (.valid (.arr [Message.toJson ⟨Role.user, "a"⟩])))))
      = [Message.toJson ⟨Role.user, "a"⟩] :=
  (claim9_roundtrip [Message.toJson ⟨Role.user, "a"⟩] (by decide)).1

/-- C10: on a session load whose non-empty conversation contains no user
message at all and whose last message is not a recognized autoreply, the
autoreply still fires: the synthesized prompt embeds the empty string as
the last user message and the adapter is invoked with it. -/
theorem claim10_autoreply_without_user (conversation : List Message)
    (file : FileState) (reply : String)
    (hne : conversation ≠ [])
    (hnouser : ∀ m ∈ conversation, m.role ≠ Role.user)
    (hnoauto : is_last_message_autoreply conversation = false) :
    lastUserMessageOf conversation = ""
    ∧ (topSection conversation file reply).calls
        = [(autoreplyPrompt "", conversation)] := by
  have hfind : conversation.reverse.find? (fun m => m.role == Role.user)
      = none := by
    rw [List.find?_eq_none]
    intro m hm
    simpa using hnouser m (List.mem_reverse.mp hm)
  have hl : lastUserMessageOf conversation = "" := by
    rw [lastUserMessageOf, hfind]
  have h1 : conversation.isEmpty = false := by
    cases hc : conversation.isEmpty
    · rfl
    · exact absurd (List.isEmpty_iff.mp hc) hne
  refine ⟨hl, ?_⟩
  simp [topSection, h1, hnoauto, hl]

set_option maxRecDepth 100000 in
/-- C10 witness: a conversation holding only the greeting. -/
theorem claim10_witness :
    (topSection [⟨Role.assistant, greeting⟩] none "r").calls
      = [(autoreplyPrompt "", [⟨Role.assistant, greeting⟩])] :=
  (claim10_autoreply_without_user [⟨Role.assistant, greeting⟩] none "r"
    (by decide) (by decide) (by decide)).2

end AgentApp
